import Mathlib

/-!
# Terminator-Project frame threat assessment: a shallow embedding

This file embeds the two Python variants of the `analyze_frame` endpoint
(`api/index.py` and `backend/server.py`) of the Terminator-Project repository
and proves the spec's claims about them.

Modelling decisions:
* Python strings handled by the payload decoder are `List Char`; `str.split`
  is embedded as `pySplit`.
* Machine floats (detection confidences) are idealised as `Rat`; Python's
  `round(x, 2)` (round-half-to-even) is embedded as `round2`.
* Exceptions are `Except String`; the external stages (base-64 decoding,
  `cv2.imdecode`, YOLO inference) are oracle functions carried in an
  environment record, so the orchestrator's control flow is exactly the
  source's.
-/

/-- The three threat levels of the policy; the code represents them as the
strings "SAFE", "CAUTION", "DANGER". -/
inductive ThreatLevel
  | SAFE
  | CAUTION
  | DANGER
deriving DecidableEq, Repr

/-- Numeric rank realising the total order SAFE < CAUTION < DANGER. -/
def rank : ThreatLevel → Nat
  | .SAFE => 0
  | .CAUTION => 1
  | .DANGER => 2

/-- `THREAT_MAP` of `api/index.py` (lines 29-37). -/
def THREAT_MAP : List (String × ThreatLevel) :=
  [("person", .SAFE), ("cell phone", .CAUTION), ("bottle", .CAUTION),
   ("cup", .CAUTION), ("knife", .DANGER), ("scissors", .DANGER),
   ("gun", .DANGER)]

/-- `THREAT_MAP` of `backend/server.py` (lines 28-36); note "cell phone"
maps to DANGER in this variant. -/
def THREAT_MAP_backend : List (String × ThreatLevel) :=
  [("person", .SAFE), ("cell phone", .DANGER), ("bottle", .CAUTION),
   ("cup", .CAUTION), ("knife", .DANGER), ("scissors", .DANGER),
   ("gun", .DANGER)]

/-- `table.get(label, "SAFE")`: dictionary lookup with explicit SAFE default. -/
def threatMapGet (table : List (String × ThreatLevel)) (label : String) :
    ThreatLevel :=
  match table.lookup label with
  | some t => t
  | none => ThreatLevel.SAFE

/-- Python `s.split(sep)` for a one-character separator: the list of
separator-free fields, in order; the empty string yields `[""]`. -/
def pySplit (sep : Char) : List Char → List (List Char)
  | [] => [[]]
  | c :: cs =>
    if c = sep then [] :: pySplit sep cs
    else
      match pySplit sep cs with
      | [] => [[c]]
      | h :: t => (c :: h) :: t

/-- Everything strictly after the first occurrence of `sep` (the whole list
if `sep` does not occur). -/
def afterSep (sep : Char) : List Char → List Char
  | [] => []
  | c :: cs => if c = sep then cs else afterSep sep cs

/-- `api/index.py` line 57:
`image_data.split(',')[1] if ',' in image_data else image_data`.
`none` models an `IndexError` on the indexing step. -/
def encoded_data_api (s : List Char) : Option (List Char) :=
  if ',' ∈ s then (pySplit ',' s).get? 1 else some s

/-- `backend/server.py` line 49: `image_data.split(',')[1]` with no guard;
`none` models the `IndexError` raised when the payload has no comma. -/
def encoded_data_backend (s : List Char) : Option (List Char) :=
  (pySplit ',' s).get? 1

/-- Spec-side reading of the decoder's split step: "if a comma is present,
everything after the first comma is treated as the encoded body; if absent,
the whole string is the encoded body". -/
def specEncodedBody (s : List Char) : List Char :=
  if ',' ∈ s then afterSep ',' s else s

/-- One YOLO box as the api code reads it: `detection[5]` is the class id,
`detection[4]` the confidence (a float, idealised as `Rat`). -/
structure Detection where
  cls : Nat
  confidence : Rat
deriving DecidableEq, Repr

/-- Python `round` to an integer: round-half-to-even (banker's rounding). -/
def pyRound (q : Rat) : Int :=
  let f : Int := ⌊q⌋
  let r : Rat := q - f
  if r < 1 / 2 then f
  else if 1 / 2 < r then f + 1
  else if f % 2 = 0 then f else f + 1

/-- Python `round(x, 2)`: round to a multiple of 1/100, half to even. -/
def round2 (q : Rat) : Rat := (pyRound (q * 100) : Rat) / 100

/-- One iteration of the api threat-precedence update (`api/index.py`
lines 87-90): DANGER wins outright, CAUTION raises a non-DANGER level,
SAFE leaves the level alone. -/
def apiStep (threat_level threat : ThreatLevel) : ThreatLevel :=
  if threat = .DANGER then .DANGER
  else if threat = .CAUTION ∧ threat_level ≠ .DANGER then .CAUTION
  else threat_level

/-- One full body of the api scan loop (`api/index.py` lines 76-90): append
the `{class, confidence}` record, then update the running level. -/
def apiLoop (names : Nat → String)
    (st : ThreatLevel × List (String × Rat)) (detection : Detection) :
    ThreatLevel × List (String × Rat) :=
  let class_name := names detection.cls
  let confidence := detection.confidence
  let detected_objects := st.2 ++ [(class_name, round2 confidence)]
  let threat := threatMapGet THREAT_MAP class_name
  (apiStep st.1 threat, detected_objects)

/-- The api policy scan over the whole detection sequence, from
`threat_level = "SAFE"`, `detected_objects = []`. -/
def apiResolve (names : Nat → String) (detections : List Detection) :
    ThreatLevel × List (String × Rat) :=
  detections.foldl (apiLoop names) (.SAFE, [])

/-- The loaded YOLO model of the api variant: its class-name vocabulary and
its inference call (which may raise). -/
structure ApiModel where
  names : Nat → String
  infer : List Nat → Except String (List Detection)

/-- External stages of the api pipeline: base-64 decoding (may raise),
`cv2.imdecode` (`none` = invalid image), and the possibly-unloaded model. -/
structure ApiEnv where
  b64decode : List Char → Except String (List Nat)
  imdecode : List Nat → Option (List Nat)
  model : Option ApiModel

/-- The JSON record the api endpoint answers with; absent keys are `none`. -/
structure ApiResult where
  threat : ThreatLevel
  label : Option String := none
  error : Option String := none
  objects : Option (List (String × Rat)) := none
  count : Option Nat := none
deriving DecidableEq, Repr

/-- `analyze_frame` of `api/index.py` (lines 46-99). The request is the
parsed `image` field (`Except.error` models a failure of `request.json()`,
caught by the outer handler; `none` models a missing key). -/
def analyze_frame_api (env : ApiEnv)
    (req : Except String (Option (List Char))) : ApiResult :=
  match req with
  | .error e => { threat := .SAFE, error := some e }
  | .ok image_data =>
    match image_data with
    | none => { threat := .SAFE, label := some "NO DATA" }
    | some s =>
      if s = [] then { threat := .SAFE, label := some "NO DATA" }
      else
        match encoded_data_api s with
        | none => { threat := .SAFE, error := some "IndexError" }
        | some encoded_data =>
          match env.b64decode encoded_data with
          | .error decode_error =>
            { threat := .SAFE,
              error := some ("Decode error: " ++ decode_error) }
          | .ok nparr =>
            match env.imdecode nparr with
            | none => { threat := .SAFE, label := some "INVALID IMAGE" }
            | some frame =>
              match env.model with
              | none => { threat := .SAFE, error := some "Model not loaded" }
              | some m =>
                match m.infer frame with
                | .error e => { threat := .SAFE, error := some e }
                | .ok detections =>
                  let r := apiResolve m.names detections
                  { threat := r.1, objects := some r.2,
                    count := some r.2.length }

/-- Python `label.upper()`: uppercase every character. -/
def pyUpper (s : String) : String := ⟨s.data.map Char.toUpper⟩

/-- Inner scan of `backend/server.py` (lines 67-85) over one result group's
labels, carrying `(highest_threat, detected_label)`: DANGER retains the
label and breaks out of the group; CAUTION (level not yet DANGER) and SAFE
(level still SAFE) overwrite the label and continue. -/
def checkGroup : ThreatLevel × String → List String → ThreatLevel × String
  | st, [] => st
  | st, label :: rest =>
    let threat := threatMapGet THREAT_MAP_backend label
    if threat = .DANGER then (.DANGER, pyUpper label)
    else if threat = .CAUTION ∧ st.1 ≠ .DANGER then
      checkGroup (.CAUTION, pyUpper label) rest
    else if threat = .SAFE ∧ st.1 = .SAFE then
      checkGroup (st.1, pyUpper label) rest
    else checkGroup st rest

/-- Outer scan of `backend/server.py` (line 66) over the result groups,
from `highest_threat = "SAFE"`, `detected_label = "SCANNING..."`. -/
def checkThreats (groups : List (List String)) : ThreatLevel × String :=
  groups.foldl checkGroup (.SAFE, "SCANNING...")

/-- External stages of the backend pipeline. `modelLoaded = false` models a
failed startup load: the bare `model(...)` call then raises `NameError`
(the except block at lines 23-24 leaves `model` undefined). `infer` yields
the result groups as lists of class ids. -/
structure BackendEnv where
  b64decode : List Char → Except String (List Nat)
  imdecode : List Nat → Option (List Nat)
  modelLoaded : Bool
  names : Nat → String
  infer : List Nat → Except String (List (List Nat))

/-- The record the backend endpoint answers with: always exactly
`{threat, label}`. -/
structure BackendResult where
  threat : ThreatLevel
  label : String
deriving DecidableEq, Repr

/-- `analyze_frame` of `backend/server.py` (lines 39-91). Every exception
(JSON failure, `IndexError` from the split, base-64 failure, YOLO raising
on a `None` frame, `NameError` from an unloaded model, inference failure)
is caught by the outer handler, which answers `{SAFE, "ERROR"}`. -/
def analyze_frame_backend (env : BackendEnv)
    (req : Except String (Option (List Char))) : BackendResult :=
  match req with
  | .error _ => { threat := .SAFE, label := "ERROR" }
  | .ok image_data =>
    match image_data with
    | none => { threat := .SAFE, label := "NO DATA" }
    | some s =>
      if s = [] then { threat := .SAFE, label := "NO DATA" }
      else
        match encoded_data_backend s with
        | none => { threat := .SAFE, label := "ERROR" }
        | some encoded_data =>
          match env.b64decode encoded_data with
          | .error _ => { threat := .SAFE, label := "ERROR" }
          | .ok nparr =>
            match env.imdecode nparr with
            | none => { threat := .SAFE, label := "ERROR" }
            | some frame =>
              if env.modelLoaded = false then
                { threat := .SAFE, label := "ERROR" }
              else
                match env.infer frame with
                | .error _ => { threat := .SAFE, label := "ERROR" }
                | .ok results =>
                  let groups := results.map (fun r => r.map env.names)
                  let st := checkThreats groups
                  { threat := st.1, label := st.2 }

/-- Spec-side driving label per claim C3: the first detection (in emission
order) whose mapped level equals the final level. -/
def specDriving (labels : List String) : Option String :=
  labels.find?
    (fun l => threatMapGet THREAT_MAP_backend l = (checkThreats [labels]).1)

/-- First label of a sequence mapping to level `t` under the backend table. -/
def firstAtLevel (t : ThreatLevel) (labels : List String) : Option String :=
  labels.find? (fun l => threatMapGet THREAT_MAP_backend l = t)

/-- Last label of a sequence mapping to level `t` under the backend table. -/
def lastAtLevel (t : ThreatLevel) (labels : List String) : Option String :=
  labels.reverse.find? (fun l => threatMapGet THREAT_MAP_backend l = t)

/-- Upper-cased last label of a sequence, with default `dl` when empty. -/
def lastLabelUpper (dl : String) : List String → String
  | [] => dl
  | l :: rest => lastLabelUpper (pyUpper l) rest

/-- Maximum of two threat levels under SAFE < CAUTION < DANGER. -/
def tmax (a b : ThreatLevel) : ThreatLevel := if rank a ≤ rank b then b else a

/-- The mapped level of one api detection: table lookup of its class name. -/
def detLevel (names : Nat → String) (d : Detection) : ThreatLevel :=
  threatMapGet THREAT_MAP (names d.cls)

/-- Class-name vocabulary used by the concrete test environments. -/
def names0 : Nat → String := fun n =>
  if n = 0 then "knife" else if n = 1 then "person" else "dog"

/-- An api environment whose every stage succeeds; inference reports a
DANGER detection first, then a SAFE one. -/
def apiEnvOk : ApiEnv :=
  { b64decode := fun _ => .ok [7]
    imdecode := fun b => some b
    model := some
      { names := names0
        infer := fun _ => .ok [⟨0, 9 / 10⟩, ⟨1, 8 / 10⟩] } }

/-- Like `apiEnvOk` but the model failed to load at process start. -/
def apiEnvNoModel : ApiEnv := { apiEnvOk with model := none }

/-- Like `apiEnvOk` but base-64 decoding raises. -/
def apiEnvB64Fail : ApiEnv :=
  { apiEnvOk with b64decode := fun _ => .error "bad b64" }

/-- Like `apiEnvOk` but `cv2.imdecode` yields no frame. -/
def apiEnvBadImage : ApiEnv := { apiEnvOk with imdecode := fun _ => none }

/-- Like `apiEnvOk` but inference raises. -/
def apiEnvInferFail : ApiEnv :=
  { apiEnvOk with model := some { names := names0
                                  infer := fun _ => .error "boom" } }

/-- A backend environment whose every stage succeeds. -/
def backendEnvOk : BackendEnv :=
  { b64decode := fun _ => .ok [7]
    imdecode := fun b => some b
    modelLoaded := true
    names := names0
    infer := fun _ => .ok [[0, 1]] }

/-- Like `backendEnvOk` but the model failed to load at process start. -/
def backendEnvNoModel : BackendEnv := { backendEnvOk with modelLoaded := false }

/-- Like `backendEnvOk` but base-64 decoding raises. -/
def backendEnvB64Fail : BackendEnv :=
  { backendEnvOk with b64decode := fun _ => .error "bad b64" }

/-- Like `backendEnvOk` but `cv2.imdecode` yields no frame. -/
def backendEnvBadImage : BackendEnv :=
  { backendEnvOk with imdecode := fun _ => none }

/-- Like `backendEnvOk` but inference raises. -/
def backendEnvInferFail : BackendEnv :=
  { backendEnvOk with infer := fun _ => .error "boom" }

/-- Api environments for the confidence-rounding claim: identical except for
the raw confidence reported by the detector (0.123 versus 0.1234). -/
def apiEnvConfA : ApiEnv :=
  { apiEnvOk with model := some { names := names0
                                  infer := fun _ => .ok [⟨1, 123 / 1000⟩] } }

/-- Second environment of the pair: raw confidence 0.1234. -/
def apiEnvConfB : ApiEnv :=
  { apiEnvOk with model := some { names := names0
                                  infer := fun _ => .ok [⟨1, 1234 / 10000⟩] } }

theorem pySplit_of_not_mem {sep : Char} {s : List Char} (h : sep ∉ s) :
    pySplit sep s = [s] := by
  induction s with
  | nil => rfl
  | cons c cs ih =>
    have hc : c ≠ sep := fun hcs => h (hcs ▸ List.mem_cons_self c cs)
    have hcs : sep ∉ cs := fun hm => h (List.mem_cons_of_mem _ hm)
    simp [pySplit, hc, ih hcs]

theorem pySplit_of_mem {sep : Char} {s : List Char} (h : sep ∈ s) :
    pySplit sep s =
      s.takeWhile (fun c => c ≠ sep) :: pySplit sep (afterSep sep s) := by
  induction s with
  | nil => cases h
  | cons c cs ih =>
    by_cases hc : c = sep
    · subst hc
      simp [pySplit, afterSep, List.takeWhile_cons]
    · have hcs : sep ∈ cs := by
        rcases List.mem_cons.mp h with h1 | h1
        · exact absurd h1.symm hc
        · exact h1
      simp [pySplit, hc, ih hcs, afterSep, List.takeWhile_cons]

theorem pySplit_head (sep : Char) (s : List Char) :
    (pySplit sep s).head? = some (s.takeWhile (fun c => c ≠ sep)) := by
  by_cases h : sep ∈ s
  · rw [pySplit_of_mem h]; rfl
  · rw [pySplit_of_not_mem h]
    have : s.takeWhile (fun c => c ≠ sep) = s := by
      apply List.takeWhile_eq_self_iff.mpr
      intro c hc
      exact decide_eq_true (fun hcs => h (hcs ▸ hc))
    rw [this]
    rfl

theorem pySplit_ne_nil (sep : Char) (s : List Char) : pySplit sep s ≠ [] := by
  by_cases h : sep ∈ s
  · rw [pySplit_of_mem h]; exact List.cons_ne_nil _ _
  · rw [pySplit_of_not_mem h]; exact List.cons_ne_nil _ _

theorem pySplit_get1_of_mem {s : List Char} (h : ',' ∈ s) :
    (pySplit ',' s).get? 1 =
      some ((afterSep ',' s).takeWhile (fun c => c ≠ ',')) := by
  rw [pySplit_of_mem h]
  have hh := pySplit_head ',' (afterSep ',' s)
  cases hps : pySplit ',' (afterSep ',' s) with
  | nil => exact absurd hps (pySplit_ne_nil _ _)
  | cons a t =>
    rw [hps] at hh
    exact hh

theorem encoded_data_api_total (s : List Char) :
    encoded_data_api s =
      some (if ',' ∈ s then
              (afterSep ',' s).takeWhile (fun c => c ≠ ',')
            else s) := by
  by_cases h : ',' ∈ s
  · rw [encoded_data_api, if_pos h, if_pos h]
    exact pySplit_get1_of_mem h
  · rw [encoded_data_api, if_neg h, if_neg h]

theorem encoded_data_backend_eq (s : List Char) :
    encoded_data_backend s =
      if ',' ∈ s then
        some ((afterSep ',' s).takeWhile (fun c => c ≠ ','))
      else none := by
  by_cases h : ',' ∈ s
  · rw [encoded_data_backend, if_pos h]
    exact pySplit_get1_of_mem h
  · rw [encoded_data_backend, if_neg h, pySplit_of_not_mem h]
    rfl

theorem apiFold_snd (names : Nat → String) (D : List Detection) :
    ∀ st : ThreatLevel × List (String × Rat),
      (D.foldl (apiLoop names) st).2 =
        st.2 ++ D.map (fun d => (names d.cls, round2 d.confidence)) := by
  induction D with
  | nil => intro st; simp
  | cons d D ih =>
    intro st
    simp only [List.foldl, List.map, ih, apiLoop]
    simp

theorem apiFold_fst (names : Nat → String) (D : List Detection) :
    ∀ st : ThreatLevel × List (String × Rat),
      (D.foldl (apiLoop names) st).1 =
        D.foldl (fun a d => apiStep a (detLevel names d)) st.1 := by
  induction D with
  | nil => intro st; rfl
  | cons d D ih =>
    intro st
    simp only [List.foldl, ih, apiLoop, detLevel]

theorem apiResolve_snd (names : Nat → String) (D : List Detection) :
    (apiResolve names D).2 =
      D.map (fun d => (names d.cls, round2 d.confidence)) := by
  simpa using apiFold_snd names D (.SAFE, [])

theorem apiResolve_fst (names : Nat → String) (D : List Detection) :
    (apiResolve names D).1 =
      D.foldl (fun a d => apiStep a (detLevel names d)) .SAFE :=
  apiFold_fst names D (.SAFE, [])

theorem apiStep_eq_tmax (a t : ThreatLevel) : apiStep a t = tmax a t := by
  cases a <;> cases t <;> decide

theorem tmax_right_comm (a x y : ThreatLevel) :
    tmax (tmax a x) y = tmax (tmax a y) x := by
  cases a <;> cases x <;> cases y <;> decide

theorem foldl_tmax_perm {l₁ l₂ : List ThreatLevel} (p : l₁.Perm l₂) :
    ∀ a : ThreatLevel, l₁.foldl tmax a = l₂.foldl tmax a := by
  induction p with
  | nil => intro a; rfl
  | cons x _ ih => intro a; exact ih (tmax a x)
  | swap x y l => intro a; simp only [List.foldl]; rw [tmax_right_comm]
  | trans _ _ ih₁ ih₂ => intro a; rw [ih₁, ih₂]

theorem rank_apiStep_le (a t : ThreatLevel) : rank a ≤ rank (apiStep a t) := by
  cases a <;> cases t <;> decide

theorem rank_foldl_le (names : Nat → String) (D : List Detection) :
    ∀ st : ThreatLevel × List (String × Rat),
      rank st.1 ≤ rank (D.foldl (apiLoop names) st).1 := by
  induction D with
  | nil => intro st; exact Nat.le_refl _
  | cons d D ih =>
    intro st
    exact Nat.le_trans (rank_apiStep_le st.1 _) (ih (apiLoop names st d))

theorem checkGroup_first_danger {labels : List String} {l : String}
    (h : firstAtLevel .DANGER labels = some l) :
    ∀ st : ThreatLevel × String,
      checkGroup st labels = (.DANGER, pyUpper l) := by
  induction labels with
  | nil => intro st; simp [firstAtLevel] at h
  | cons x rest ih =>
    intro st
    by_cases hx : threatMapGet THREAT_MAP_backend x = .DANGER
    · have hxl : x = l := by
        simp only [firstAtLevel, List.find?, hx] at h
        simpa using h
      subst hxl
      simp [checkGroup, hx]
    · have hrest : firstAtLevel .DANGER rest = some l := by
        simp only [firstAtLevel, List.find?] at h ⊢
        rcases hfind : decide (threatMapGet THREAT_MAP_backend x = .DANGER) with _ | _
        · rw [hfind] at h; exact h
        · exact absurd (of_decide_eq_true hfind) hx
      simp only [checkGroup, if_neg hx]
      by_cases hc : threatMapGet THREAT_MAP_backend x = .CAUTION ∧ st.1 ≠ .DANGER
      · rw [if_pos hc]; exact ih hrest _
      · rw [if_neg hc]
        by_cases hs : threatMapGet THREAT_MAP_backend x = .SAFE ∧ st.1 = .SAFE
        · rw [if_pos hs]; exact ih hrest _
        · rw [if_neg hs]; exact ih hrest _

theorem lastAtLevel_cons (t : ThreatLevel) (x : String) (rest : List String) :
    lastAtLevel t (x :: rest) =
      (lastAtLevel t rest).or
        (if threatMapGet THREAT_MAP_backend x = t then some x else none) := by
  by_cases hx : threatMapGet THREAT_MAP_backend x = t
  · simp [lastAtLevel, List.find?_append, List.find?, hx]
  · simp [lastAtLevel, List.find?_append, List.find?, hx]

theorem checkGroup_all_safe_caution {labels : List String}
    (h : ∀ a ∈ labels, threatMapGet THREAT_MAP_backend a = .SAFE) :
    ∀ dl : String, checkGroup (.CAUTION, dl) labels = (.CAUTION, dl) := by
  induction labels with
  | nil => intro dl; rfl
  | cons x rest ih =>
    intro dl
    have hx : threatMapGet THREAT_MAP_backend x = .SAFE :=
      h x (List.mem_cons_self x rest)
    have hrest : ∀ a ∈ rest, threatMapGet THREAT_MAP_backend a = .SAFE :=
      fun a ha => h a (List.mem_cons_of_mem _ ha)
    simp only [checkGroup, hx]
    norm_num
    exact ih hrest dl

theorem checkGroup_all_safe {labels : List String}
    (h : ∀ a ∈ labels, threatMapGet THREAT_MAP_backend a = .SAFE) :
    ∀ dl : String,
      checkGroup (.SAFE, dl) labels = (.SAFE, lastLabelUpper dl labels) := by
  induction labels with
  | nil => intro dl; rfl
  | cons x rest ih =>
    intro dl
    have hx : threatMapGet THREAT_MAP_backend x = .SAFE :=
      h x (List.mem_cons_self x rest)
    have hrest : ∀ a ∈ rest, threatMapGet THREAT_MAP_backend a = .SAFE :=
      fun a ha => h a (List.mem_cons_of_mem _ ha)
    simp only [checkGroup, hx, lastLabelUpper]
    norm_num
    exact ih hrest (pyUpper x)

theorem checkGroup_last_caution {labels : List String} {l : String}
    (hd : ∀ a ∈ labels, threatMapGet THREAT_MAP_backend a ≠ .DANGER)
    (hl : lastAtLevel .CAUTION labels = some l) :
    ∀ st : ThreatLevel × String, st.1 ≠ .DANGER →
      checkGroup st labels = (.CAUTION, pyUpper l) := by
  induction labels with
  | nil => intro st hst; simp [lastAtLevel] at hl
  | cons x rest ih =>
    intro st hst
    have hxd : threatMapGet THREAT_MAP_backend x ≠ .DANGER :=
      hd x (List.mem_cons_self x rest)
    have hdrest : ∀ a ∈ rest, threatMapGet THREAT_MAP_backend a ≠ .DANGER :=
      fun a ha => hd a (List.mem_cons_of_mem _ ha)
    rw [lastAtLevel_cons] at hl
    by_cases hxc : threatMapGet THREAT_MAP_backend x = .CAUTION
    · simp only [checkGroup, if_neg hxd, if_pos (And.intro hxc hst)]
      cases hrest : lastAtLevel .CAUTION rest with
      | some l' =>
        rw [hrest] at hl
        have : l' = l := by simpa [Option.or] using hl
        subst this
        exact ih hdrest hrest (.CAUTION, pyUpper x) (by simp)
      | none =>
        rw [hrest, if_pos hxc] at hl
        have hxl : x = l := by simpa [Option.or] using hl
        subst hxl
        have hsafe : ∀ a ∈ rest, threatMapGet THREAT_MAP_backend a = .SAFE := by
          intro a ha
          have hnc : ¬ (threatMapGet THREAT_MAP_backend a = .CAUTION) := by
            have := List.find?_eq_none.mp hrest a (List.mem_reverse.mpr ha)
            simpa using this
          cases hmap : threatMapGet THREAT_MAP_backend a with
          | SAFE => rfl
          | CAUTION => exact absurd hmap hnc
          | DANGER => exact absurd hmap (hdrest a ha)
        exact checkGroup_all_safe_caution hsafe (pyUpper x)
    · have hxs : threatMapGet THREAT_MAP_backend x = .SAFE := by
        cases hmap : threatMapGet THREAT_MAP_backend x with
        | SAFE => rfl
        | CAUTION => exact absurd hmap hxc
        | DANGER => exact absurd hmap hxd
      have hlrest : lastAtLevel .CAUTION rest = some l := by
        rw [if_neg hxc] at hl
        cases hrest : lastAtLevel .CAUTION rest with
        | some l' => rw [hrest] at hl; simpa [Option.or] using hl
        | none => rw [hrest] at hl; simp [Option.or] at hl
      simp only [checkGroup, if_neg hxd,
        if_neg (fun hand => hxc (And.left hand))]
      by_cases hsafe : st.1 = .SAFE
      · rw [if_pos (And.intro hxs hsafe)]
        exact ih hdrest hlrest (st.1, pyUpper x) hst
      · rw [if_neg (fun hand => hsafe (And.right hand))]
        exact ih hdrest hlrest st hst

theorem analyze_api_success (env : ApiEnv) (m : ApiModel) (s enc : List Char)
    (bytes frame : List Nat) (D : List Detection)
    (hs : ¬ s = []) (henc : encoded_data_api s = some enc)
    (hb : env.b64decode enc = .ok bytes)
    (hf : env.imdecode bytes = some frame)
    (hm : env.model = some m) (hi : m.infer frame = .ok D) :
    analyze_frame_api env (.ok (some s)) =
      { threat := (apiResolve m.names D).1,
        objects := some (apiResolve m.names D).2,
        count := some (apiResolve m.names D).2.length } := by
  simp only [analyze_frame_api, if_neg hs, henc, hb, hf, hm, hi]

/-- C1: on the api success path, the returned objects list has exactly one
`{class, confidence}` entry per detection (`len(objects) = len(D)`) and
`count = len(objects)`, even when a DANGER detection occurs early: the api
scan never breaks out of the loop, so the inventory is never truncated. -/
theorem claim_C1 (env : ApiEnv) (m : ApiModel) (s enc : List Char)
    (bytes frame : List Nat) (D : List Detection)
    (hs : ¬ s = []) (henc : encoded_data_api s = some enc)
    (hb : env.b64decode enc = .ok bytes)
    (hf : env.imdecode bytes = some frame)
    (hm : env.model = some m) (hi : m.infer frame = .ok D) :
    analyze_frame_api env (.ok (some s)) =
      { threat := (apiResolve m.names D).1,
        objects := some (apiResolve m.names D).2,
        count := some (apiResolve m.names D).2.length } ∧
    (apiResolve m.names D).2.length = D.length := by
  refine ⟨analyze_api_success env m s enc bytes frame D hs henc hb hf hm hi, ?_⟩
  rw [apiResolve_snd]
  exact List.length_map D _

theorem claim_C1_witness :
    analyze_frame_api apiEnvOk (.ok (some ['x'])) =
      { threat := (apiResolve names0 [⟨0, 9 / 10⟩, ⟨1, 8 / 10⟩]).1,
        objects := some (apiResolve names0 [⟨0, 9 / 10⟩, ⟨1, 8 / 10⟩]).2,
        count := some (apiResolve names0 [⟨0, 9 / 10⟩, ⟨1, 8 / 10⟩]).2.length } ∧
    (apiResolve names0 [⟨0, 9 / 10⟩, ⟨1, 8 / 10⟩]).2.length = 2 :=
  claim_C1 apiEnvOk
    { names := names0, infer := fun _ => .ok [⟨0, 9 / 10⟩, ⟨1, 8 / 10⟩] }
    ['x'] ['x'] [7] [7] [⟨0, 9 / 10⟩, ⟨1, 8 / 10⟩]
    (by decide) (by decide) rfl rfl rfl rfl

/-- C2 fails on the code: with two or more commas, `split(',')[1]` keeps
only the field between the first and second comma, not everything after the
first comma; and the backend variant's unguarded `[1]` raises on a
comma-free payload. -/
theorem claim_C2_counterexample :
    encoded_data_api ("a,b,c".toList) = some ("b".toList) ∧
    encoded_data_api ("a,b,c".toList) ≠
      some (specEncodedBody ("a,b,c".toList)) ∧
    encoded_data_backend ("abc".toList) = none := by decide

/-- C2 amended: when the payload contains a comma, both variants take the
field strictly between the first and second comma (to the end of the string
if there is no second comma); when it contains none, the api variant takes
the whole string while the backend variant's split step fails. The api
split step never fails. -/
theorem claim_C2_amended (s : List Char) :
    (',' ∈ s →
      encoded_data_api s =
        some ((afterSep ',' s).takeWhile (fun c => c ≠ ',')) ∧
      encoded_data_backend s =
        some ((afterSep ',' s).takeWhile (fun c => c ≠ ','))) ∧
    (',' ∉ s →
      encoded_data_api s = some s ∧ encoded_data_backend s = none) := by
  constructor
  · intro h
    constructor
    · rw [encoded_data_api_total, if_pos h]
    · rw [encoded_data_backend_eq, if_pos h]
  · intro h
    constructor
    · rw [encoded_data_api_total, if_neg h]
    · rw [encoded_data_backend_eq, if_neg h]

theorem claim_C2_amended_witness :
    encoded_data_api ("a,b,c".toList) =
      some ((afterSep ',' ("a,b,c".toList)).takeWhile (fun c => c ≠ ',')) ∧
    encoded_data_api ("abc".toList) = some ("abc".toList) ∧
    encoded_data_backend ("abc".toList) = none :=
  ⟨((claim_C2_amended _).1 (by decide)).1,
   ((claim_C2_amended _).2 (by decide)).1,
   ((claim_C2_amended _).2 (by decide)).2⟩

/-- C3 fails on the code: with detections `cup` then `bottle` (both
CAUTION), the final level is CAUTION and the first detection at that level
is `cup`, but the backend scan retains `BOTTLE`: a later equal-level
detection does override the driving label. -/
theorem claim_C3_counterexample :
    specDriving ["cup", "bottle"] = some "cup" ∧
    checkThreats [["cup", "bottle"]] = (.CAUTION, "BOTTLE") ∧
    (checkThreats [["cup", "bottle"]]).2 ≠ pyUpper "cup" := by decide

/-- C3 amended: for a single detection group, a later strictly-higher
detection still replaces the label, but equal levels are last-wins below
DANGER: if the final level is DANGER the first DANGER-mapped label is
retained (the scan breaks there); if it is CAUTION the last CAUTION-mapped
label is retained; if every detection maps to SAFE the last detection's
label is retained ("SCANNING..." when there are none). -/
theorem claim_C3_amended (labels : List String) :
    (∀ l, firstAtLevel .DANGER labels = some l →
      checkThreats [labels] = (.DANGER, pyUpper l)) ∧
    (∀ l, (∀ a ∈ labels, threatMapGet THREAT_MAP_backend a ≠ .DANGER) →
      lastAtLevel .CAUTION labels = some l →
      checkThreats [labels] = (.CAUTION, pyUpper l)) ∧
    ((∀ a ∈ labels, threatMapGet THREAT_MAP_backend a = .SAFE) →
      checkThreats [labels] = (.SAFE, lastLabelUpper "SCANNING..." labels)) := by
  refine ⟨?_, ?_, ?_⟩
  · intro l h
    exact checkGroup_first_danger h (.SAFE, "SCANNING...")
  · intro l hd hl
    exact checkGroup_last_caution hd hl (.SAFE, "SCANNING...") (by decide)
  · intro h
    exact checkGroup_all_safe h "SCANNING..."

theorem claim_C3_amended_witness :
    checkThreats [["person", "knife", "cup"]] = (.DANGER, pyUpper "knife") ∧
    checkThreats [["cup", "bottle"]] = (.CAUTION, pyUpper "bottle") ∧
    checkThreats [["person", "dog"]] =
      (.SAFE, lastLabelUpper "SCANNING..." ["person", "dog"]) :=
  ⟨(claim_C3_amended _).1 "knife" (by decide),
   (claim_C3_amended _).2.1 "bottle" (by decide) (by decide),
   (claim_C3_amended _).2.2 (by decide)⟩

/-- C4: every stage failure, in either variant, is answered with a normal
result record whose threat is SAFE and whose `error` or `label` field
explains the failure; the handlers are total, so no exception reaches the
transport layer. -/
theorem claim_C4 :
    (∀ (env : ApiEnv) (e : String),
      analyze_frame_api env (.error e) =
        { threat := .SAFE, error := some e }) ∧
    (∀ env : ApiEnv,
      analyze_frame_api env (.ok none) =
        { threat := .SAFE, label := some "NO DATA" }) ∧
    (∀ env : ApiEnv,
      analyze_frame_api env (.ok (some [])) =
        { threat := .SAFE, label := some "NO DATA" }) ∧
    (∀ (env : ApiEnv) (s enc : List Char) (msg : String), ¬ s = [] →
      encoded_data_api s = some enc → env.b64decode enc = .error msg →
      analyze_frame_api env (.ok (some s)) =
        { threat := .SAFE, error := some ("Decode error: " ++ msg) }) ∧
    (∀ (env : ApiEnv) (s enc : List Char) (bytes : List Nat), ¬ s = [] →
      encoded_data_api s = some enc → env.b64decode enc = .ok bytes →
      env.imdecode bytes = none →
      analyze_frame_api env (.ok (some s)) =
        { threat := .SAFE, label := some "INVALID IMAGE" }) ∧
    (∀ (env : ApiEnv) (s enc : List Char) (bytes frame : List Nat),
      ¬ s = [] →
      encoded_data_api s = some enc → env.b64decode enc = .ok bytes →
      env.imdecode bytes = some frame → env.model = none →
      analyze_frame_api env (.ok (some s)) =
        { threat := .SAFE, error := some "Model not loaded" }) ∧
    (∀ (env : ApiEnv) (m : ApiModel) (s enc : List Char)
      (bytes frame : List Nat) (e : String), ¬ s = [] →
      encoded_data_api s = some enc → env.b64decode enc = .ok bytes →
      env.imdecode bytes = some frame → env.model = some m →
      m.infer frame = .error e →
      analyze_frame_api env (.ok (some s)) =
        { threat := .SAFE, error := some e }) ∧
    (∀ (env : BackendEnv) (e : String),
      analyze_frame_backend env (.error e) =
        { threat := .SAFE, label := "ERROR" }) ∧
    (∀ env : BackendEnv,
      analyze_frame_backend env (.ok none) =
        { threat := .SAFE, label := "NO DATA" }) ∧
    (∀ env : BackendEnv,
      analyze_frame_backend env (.ok (some [])) =
        { threat := .SAFE, label := "NO DATA" }) ∧
    (∀ (env : BackendEnv) (s : List Char), ¬ s = [] →
      encoded_data_backend s = none →
      analyze_frame_backend env (.ok (some s)) =
        { threat := .SAFE, label := "ERROR" }) ∧
    (∀ (env : BackendEnv) (s enc : List Char) (msg : String), ¬ s = [] →
      encoded_data_backend s = some enc → env.b64decode enc = .error msg →
      analyze_frame_backend env (.ok (some s)) =
        { threat := .SAFE, label := "ERROR" }) ∧
    (∀ (env : BackendEnv) (s enc : List Char) (bytes : List Nat), ¬ s = [] →
      encoded_data_backend s = some enc → env.b64decode enc = .ok bytes →
      env.imdecode bytes = none →
      analyze_frame_backend env (.ok (some s)) =
        { threat := .SAFE, label := "ERROR" }) ∧
    (∀ (env : BackendEnv) (s enc : List Char) (bytes frame : List Nat),
      ¬ s = [] →
      encoded_data_backend s = some enc → env.b64decode enc = .ok bytes →
      env.imdecode bytes = some frame → env.modelLoaded = false →
      analyze_frame_backend env (.ok (some s)) =
        { threat := .SAFE, label := "ERROR" }) ∧
    (∀ (env : BackendEnv) (s enc : List Char) (bytes frame : List Nat)
      (e : String), ¬ s = [] →
      encoded_data_backend s = some enc → env.b64decode enc = .ok bytes →
      env.imdecode bytes = some frame → env.modelLoaded = true →
      env.infer frame = .error e →
      analyze_frame_backend env (.ok (some s)) =
        { threat := .SAFE, label := "ERROR" }) := by
  refine ⟨?_, ?_, ?_, ?_, ?_, ?_, ?_, ?_, ?_, ?_, ?_, ?_, ?_, ?_, ?_⟩
  · intro env e; rfl
  · intro env; rfl
  · intro env; rfl
  · intro env s enc msg hs henc hb
    simp only [analyze_frame_api, if_neg hs, henc, hb]
  · intro env s enc bytes hs henc hb hf
    simp only [analyze_frame_api, if_neg hs, henc, hb, hf]
  · intro env s enc bytes frame hs henc hb hf hm
    simp only [analyze_frame_api, if_neg hs, henc, hb, hf, hm]
  · intro env m s enc bytes frame e hs henc hb hf hm hi
    simp only [analyze_frame_api, if_neg hs, henc, hb, hf, hm, hi]
  · intro env e; rfl
  · intro env; rfl
  · intro env; rfl
  · intro env s hs henc
    simp only [analyze_frame_backend, if_neg hs, henc]
  · intro env s enc msg hs henc hb
    simp only [analyze_frame_backend, if_neg hs, henc, hb]
  · intro env s enc bytes hs henc hb hf
    simp only [analyze_frame_backend, if_neg hs, henc, hb, hf]
  · intro env s enc bytes frame hs henc hb hf hm
    simp only [analyze_frame_backend, if_neg hs, henc, hb, hf, hm, if_pos]
  · intro env s enc bytes frame e hs henc hb hf hm hi
    simp only [analyze_frame_backend, if_neg hs, henc, hb, hf, hm, hi,
      Bool.true_eq_false, if_false]

theorem claim_C4_witness :
    analyze_frame_api apiEnvOk (.error "json failure") =
      { threat := .SAFE, error := some "json failure" } ∧
    analyze_frame_api apiEnvB64Fail (.ok (some ['x'])) =
      { threat := .SAFE, error := some ("Decode error: " ++ "bad b64") } ∧
    analyze_frame_api apiEnvBadImage (.ok (some ['x'])) =
      { threat := .SAFE, label := some "INVALID IMAGE" } ∧
    analyze_frame_api apiEnvNoModel (.ok (some ['x'])) =
      { threat := .SAFE, error := some "Model not loaded" } ∧
    analyze_frame_api apiEnvInferFail (.ok (some ['x'])) =
      { threat := .SAFE, error := some "boom" } ∧
    analyze_frame_backend backendEnvOk (.ok (some ['x'])) =
      { threat := .SAFE, label := "ERROR" } ∧
    analyze_frame_backend backendEnvNoModel (.ok (some ("d,x".toList))) =
      { threat := .SAFE, label := "ERROR" } ∧
    analyze_frame_backend backendEnvInferFail (.ok (some ("d,x".toList))) =
      { threat := .SAFE, label := "ERROR" } :=
  ⟨claim_C4.1 apiEnvOk "json failure",
   claim_C4.2.2.2.1 apiEnvB64Fail ['x'] ['x'] "bad b64"
     (by decide) (by decide) rfl,
   claim_C4.2.2.2.2.1 apiEnvBadImage ['x'] ['x'] [7]
     (by decide) (by decide) rfl rfl,
   claim_C4.2.2.2.2.2.1 apiEnvNoModel ['x'] ['x'] [7] [7]
     (by decide) (by decide) rfl rfl rfl,
   claim_C4.2.2.2.2.2.2.1 apiEnvInferFail
     { names := names0, infer := fun _ => .error "boom" }
     ['x'] ['x'] [7] [7] "boom" (by decide) (by decide) rfl rfl rfl rfl,
   claim_C4.2.2.2.2.2.2.2.2.2.2.1 backendEnvOk ['x'] (by decide) (by decide),
   claim_C4.2.2.2.2.2.2.2.2.2.2.2.2.2.1 backendEnvNoModel ("d,x".toList)
     ['x'] [7] [7] (by decide) (by decide) rfl rfl rfl,
   claim_C4.2.2.2.2.2.2.2.2.2.2.2.2.2.2 backendEnvInferFail ("d,x".toList)
     ['x'] [7] [7] "boom" (by decide) (by decide) rfl rfl rfl rfl⟩

/-- C5 fails on the code as literally stated: on a successfully decoded
payload with the backend unavailable, the api variant answers with the
error string "Model not loaded" (capital M), not "model not loaded"; the
backend variant does not special-case an unloaded model at all and answers
`{SAFE, label: "ERROR"}` via its generic handler. -/
theorem claim_C5_counterexample :
    analyze_frame_api apiEnvNoModel (.ok (some ['x'])) =
      { threat := .SAFE, error := some "Model not loaded" } ∧
    analyze_frame_api apiEnvNoModel (.ok (some ['x'])) ≠
      { threat := .SAFE, error := some "model not loaded" } ∧
    analyze_frame_backend backendEnvNoModel (.ok (some ("d,x".toList))) =
      { threat := .SAFE, label := "ERROR" } ∧
    analyze_frame_backend backendEnvNoModel (.ok (some ("d,x".toList))) ≠
      { threat := .SAFE, label := "model not loaded" } := by decide

/-- C5 amended: if the detection backend failed to initialize, every
request whose payload decodes successfully is answered without invoking
inference — by `{threat: SAFE, error: "Model not loaded"}` in the api
variant (which guards on the model), and by `{threat: SAFE, label:
"ERROR"}` in the backend variant (whose bare model call raises and is
caught by the generic handler). -/
theorem claim_C5_amended :
    (∀ (env : ApiEnv) (s enc : List Char) (bytes frame : List Nat),
      ¬ s = [] →
      encoded_data_api s = some enc → env.b64decode enc = .ok bytes →
      env.imdecode bytes = some frame → env.model = none →
      analyze_frame_api env (.ok (some s)) =
        { threat := .SAFE, error := some "Model not loaded" }) ∧
    (∀ (env : BackendEnv) (s enc : List Char) (bytes frame : List Nat),
      ¬ s = [] →
      encoded_data_backend s = some enc → env.b64decode enc = .ok bytes →
      env.imdecode bytes = some frame → env.modelLoaded = false →
      analyze_frame_backend env (.ok (some s)) =
        { threat := .SAFE, label := "ERROR" }) := by
  constructor
  · intro env s enc bytes frame hs henc hb hf hm
    simp only [analyze_frame_api, if_neg hs, henc, hb, hf, hm]
  · intro env s enc bytes frame hs henc hb hf hm
    simp only [analyze_frame_backend, if_neg hs, henc, hb, hf, hm, if_pos]

theorem claim_C5_amended_witness :
    analyze_frame_api apiEnvNoModel (.ok (some ['y'])) =
      { threat := .SAFE, error := some "Model not loaded" } ∧
    analyze_frame_backend backendEnvNoModel (.ok (some ("d,y".toList))) =
      { threat := .SAFE, label := "ERROR" } :=
  ⟨claim_C5_amended.1 apiEnvNoModel ['y'] ['y'] [7] [7]
     (by decide) (by decide) rfl rfl rfl,
   claim_C5_amended.2 backendEnvNoModel ("d,y".toList) ['y'] [7] [7]
     (by decide) (by decide) rfl rfl rfl⟩

/-- C6: the api final level is the `tmax`-fold (maximum under
SAFE < CAUTION < DANGER) of the per-detection mapped levels, hence
invariant under any permutation of the detection sequence. -/
theorem claim_C6 (names : Nat → String) (D Dp : List Detection)
    (h : D.Perm Dp) :
    (apiResolve names D).1 =
      (D.map (detLevel names)).foldl tmax .SAFE ∧
    (apiResolve names D).1 = (apiResolve names Dp).1 := by
  have key : ∀ E : List Detection,
      (apiResolve names E).1 = (E.map (detLevel names)).foldl tmax .SAFE := by
    intro E
    rw [apiResolve_fst, List.foldl_map]
    simp only [apiStep_eq_tmax]
  refine ⟨key D, ?_⟩
  rw [key D, key Dp]
  exact foldl_tmax_perm (h.map (detLevel names)) .SAFE

theorem claim_C6_witness :
    (apiResolve names0 [⟨1, 1⟩, ⟨0, 1⟩]).1 =
      ([⟨1, 1⟩, ⟨0, 1⟩].map (detLevel names0)).foldl tmax .SAFE ∧
    (apiResolve names0 [⟨1, 1⟩, ⟨0, 1⟩]).1 =
      (apiResolve names0 [⟨0, 1⟩, ⟨1, 1⟩]).1 :=
  claim_C6 names0 [⟨1, 1⟩, ⟨0, 1⟩] [⟨0, 1⟩, ⟨1, 1⟩]
    (List.Perm.swap (⟨0, 1⟩ : Detection) ⟨1, 1⟩ [])

theorem foldl_apiStep_safe {names : Nat → String} {D : List Detection}
    (h : ∀ d ∈ D, detLevel names d = .SAFE) :
    D.foldl (fun a d => apiStep a (detLevel names d)) .SAFE = .SAFE := by
  induction D with
  | nil => rfl
  | cons d rest ih =>
    have hd : detLevel names d = .SAFE := h d (List.mem_cons_self d rest)
    have hrest : ∀ x ∈ rest, detLevel names x = .SAFE :=
      fun x hx => h x (List.mem_cons_of_mem _ hx)
    simp only [List.foldl, hd]
    exact ih hrest

/-- C7: a label absent from the threat table resolves to SAFE in both
variants, a SAFE lookup never changes the running level, and a sequence of
unknown-label detections resolves to the SAFE level. -/
theorem claim_C7 (names : Nat → String) (l : String) (D : List Detection)
    (h1 : THREAT_MAP.lookup l = none)
    (h2 : THREAT_MAP_backend.lookup l = none)
    (h3 : ∀ d ∈ D, THREAT_MAP.lookup (names d.cls) = none) :
    threatMapGet THREAT_MAP l = .SAFE ∧
    threatMapGet THREAT_MAP_backend l = .SAFE ∧
    (∀ level, apiStep level (threatMapGet THREAT_MAP l) = level) ∧
    (apiResolve names D).1 = .SAFE := by
  have g1 : threatMapGet THREAT_MAP l = .SAFE := by
    simp only [threatMapGet, h1]
  have g2 : threatMapGet THREAT_MAP_backend l = .SAFE := by
    simp only [threatMapGet, h2]
  refine ⟨g1, g2, ?_, ?_⟩
  · intro level
    rw [g1]
    cases level <;> decide
  · rw [apiResolve_fst]
    apply foldl_apiStep_safe
    intro d hd
    simp only [detLevel, threatMapGet, h3 d hd]

theorem claim_C7_witness :
    threatMapGet THREAT_MAP "dog" = .SAFE ∧
    threatMapGet THREAT_MAP_backend "dog" = .SAFE ∧
    (∀ level, apiStep level (threatMapGet THREAT_MAP "dog") = level) ∧
    (apiResolve (fun _ => "dog") [⟨0, 1 / 2⟩]).1 = .SAFE :=
  claim_C7 (fun _ => "dog") "dog" [⟨0, 1 / 2⟩]
    (by decide) (by decide) (by decide)

/-- C8: an absent or empty image payload is answered immediately with
`{threat: SAFE, label: "NO DATA"}` in both variants; the result is the
same for every environment, so neither the decoder nor the detection
adapter is consulted. -/
theorem claim_C8 (envA : ApiEnv) (envB : BackendEnv)
    (img : Option (List Char)) (h : img = none ∨ img = some []) :
    analyze_frame_api envA (.ok img) =
      { threat := .SAFE, label := some "NO DATA" } ∧
    analyze_frame_backend envB (.ok img) =
      { threat := .SAFE, label := "NO DATA" } := by
  rcases h with h | h <;> subst h <;> exact ⟨rfl, rfl⟩

theorem claim_C8_witness :
    (analyze_frame_api apiEnvOk (.ok none) =
      { threat := .SAFE, label := some "NO DATA" } ∧
    analyze_frame_backend backendEnvOk (.ok none) =
      { threat := .SAFE, label := "NO DATA" }) ∧
    (analyze_frame_api apiEnvOk (.ok (some [])) =
      { threat := .SAFE, label := some "NO DATA" } ∧
    analyze_frame_backend backendEnvOk (.ok (some [])) =
      { threat := .SAFE, label := "NO DATA" }) :=
  ⟨claim_C8 apiEnvOk backendEnvOk none (Or.inl rfl),
   claim_C8 apiEnvOk backendEnvOk (some []) (Or.inr rfl)⟩

/-- C9: the api running threat level is monotonically non-decreasing under
SAFE < CAUTION < DANGER: one loop iteration never lowers it, and neither
does any number of further iterations. -/
theorem claim_C9 (names : Nat → String)
    (st : ThreatLevel × List (String × Rat)) (d : Detection)
    (D : List Detection) :
    rank st.1 ≤ rank (apiLoop names st d).1 ∧
    rank st.1 ≤ rank (D.foldl (apiLoop names) st).1 :=
  ⟨rank_apiStep_le st.1 (threatMapGet THREAT_MAP (names d.cls)),
   rank_foldl_le names D st⟩

/-- C10: every confidence in the api objects list is the detector's raw
confidence rounded to 2 decimal places (round-half-to-even, as Python's
`round`), and the raw value is not otherwise recoverable: two requests
whose detections differ only in raw confidences with equal rounded value
produce identical responses. -/
theorem claim_C10 :
    (∀ (names : Nat → String) (D : List Detection),
      (apiResolve names D).2 =
        D.map (fun d => (names d.cls, round2 d.confidence))) ∧
    ((123 / 1000 : Rat) ≠ 1234 / 10000) ∧
    round2 (123 / 1000) = round2 (1234 / 10000) ∧
    analyze_frame_api apiEnvConfA (.ok (some ['x'])) =
      analyze_frame_api apiEnvConfB (.ok (some ['x'])) := by
  have hround : round2 (123 / 1000 : Rat) = round2 (1234 / 10000 : Rat) := by
    norm_num [round2, pyRound]
  refine ⟨apiResolve_snd, by norm_num, hround, ?_⟩
  have hA := analyze_api_success apiEnvConfA
    { names := names0, infer := fun _ => .ok [⟨1, 123 / 1000⟩] }
    ['x'] ['x'] [7] [7] [⟨1, 123 / 1000⟩]
    (by decide) (by decide) rfl rfl rfl rfl
  have hB := analyze_api_success apiEnvConfB
    { names := names0, infer := fun _ => .ok [⟨1, 1234 / 10000⟩] }
    ['x'] ['x'] [7] [7] [⟨1, 1234 / 10000⟩]
    (by decide) (by decide) rfl rfl rfl rfl
  rw [hA, hB, apiResolve_fst, apiResolve_fst, apiResolve_snd, apiResolve_snd]
  simp only [List.foldl, List.map, List.length_cons, List.length_nil]
  rw [hround]
  rfl
